import Mathlib

/-!
Shallow embedding of the udev-writer reconciliation daemon
(package `udevwriter`: `UdevSync` with its tick/apply/cleanup logic, and the
`ExecInterface` command runners), together with theorems checking the
natural-language specification against it.

Bytes (`[]byte` in the source) are modelled as `List Nat`; file-system and
process effects are modelled by explicit oracles passed in as environment
records, and each operation returns the writes it performed and the command
vectors it handed to the runner, so that ordering and no-op properties can be
stated.
-/

namespace UdevWriter

/-- Result of one external command execution: the combined stdout/stderr
output (Go `[]byte`, shown here as the string it is formatted with) and the
error, `none` meaning success. -/
structure ExecOutcome where
  out : String
  err : Option String
deriving Repr, DecidableEq

/-- The `ExecInterface` capability as seen by `UdevSync`: a total oracle from
an argument vector to an outcome.  Each call site passes the vector it wants
run; the trace of vectors passed is recorded by the callers below. -/
abbrev ExecOracle := List String → ExecOutcome

/-- Embeds the error built in `reloadUdev`:
`fmt.Errorf("error executing %s: %s (%s))", strings.Join(cmd, " "), string(out), err)`
(the doubled closing parenthesis is in the source). -/
def execErrMsg (cmd : List String) (out : String) (err : String) : String :=
  "error executing " ++ String.intercalate " " cmd ++ ": " ++ out ++ " (" ++ err ++ "))"

/-- The fixed command table of `reloadUdev`: reload all rules files, pass all
block devices through the newly loaded rules, block until all devices are
processed. -/
def udevadmCommands : List (List String) :=
  [["udevadm", "control", "--reload"],
   ["udevadm", "trigger", "--subsystem-match=block"],
   ["udevadm", "settle", "--timeout=300"]]

/-- Embeds the loop body of `reloadUdev`: run each command in order through
the exec oracle; on the first failure stop and return the formatted error.
Returns the list of vectors actually handed to the runner (a failing command
was run, the ones after it were not) together with the result. -/
def runCommands (e : ExecOracle) : List (List String) → List (List String) × Option String
  | [] => ([], none)
  | cmd :: rest =>
    match (e cmd).err with
    | some m => ([cmd], some (execErrMsg cmd (e cmd).out m))
    | none =>
      let r := runCommands e rest
      (cmd :: r.1, r.2)

/-- Embeds `UdevSync.reloadUdev`: `runCommands` over the fixed three-command
table. -/
def reloadUdev (e : ExecOracle) : List (List String) × Option String :=
  runCommands e udevadmCommands

/-- Embeds the unguarded `cmd[0]` / `cmd[1:]` split both `Exec`
implementations perform before calling `osexec.Command`: on an empty vector
the Go code panics with an index-out-of-range, modelled as `none`. -/
def splitArgv (cmd : List String) : Option (String × List String) :=
  match cmd with
  | [] => none
  | c0 :: rest => some (c0, rest)

/-- Embeds `exec.Exec` (the direct variant): split the vector into
`cmd[0]` and `cmd[1:]` and run it in the execution context of the daemon itself, returning the
combined output and error.  `none` models the panic on an empty vector. -/
def execExec (os : ExecOracle) (cmd : List String) : Option ExecOutcome :=
  match splitArgv cmd with
  | none => none
  | some (c0, rest) => some (os (c0 :: rest))

/-- The constant `mountNsPath = "1/ns/mnt"`: the namespace handle of process
identifier 1 relative to the host proc directory. -/
def mountNsPath : String := "1/ns/mnt"

/-- Models Go `path.Join` / `filepath.Join` for the shapes used here: a clean
directory path without a trailing separator joined with a relative file
path. -/
def pathJoin (dir file : String) : String := dir ++ "/" ++ file

/-- Embeds the vector construction of `nsenterExec.Exec`:
`["nsenter", "--mount=" + filepath.Join(hostProcDir, mountNsPath), "--"]`
followed by the original command. -/
def nsenterWrap (hostProcDir : String) (cmd : List String) : List String :=
  ["nsenter", "--mount=" ++ pathJoin hostProcDir mountNsPath, "--"] ++ cmd

/-- Embeds `nsenterExec.Exec`: build the wrapped vector, split it at index 0
(unguarded in the source, modelled by `splitArgv`), and execute it.  Returns
the vector actually executed together with its outcome; `none` models an
index panic, which the wrapping makes impossible. -/
def nsenterExecExec (hostProcDir : String) (os : ExecOracle) (cmd : List String) :
    Option (List String × ExecOutcome) :=
  match splitArgv (nsenterWrap hostProcDir cmd) with
  | none => none
  | some (c0, rest) => some (c0 :: rest, os (c0 :: rest))

/-- Bytes of an ASCII string, modelling the identity between Go `string` and
`[]byte` data for the ASCII template text and names used here. -/
def strToBytes (s : String) : List Nat := s.toList.map Char.toNat

/-- Segment of `udevFileTemplate` before `\x7b\x7b.Rules\x7d\x7d`. -/
def tplHead : String :=
  "\n# Generated file, do not modify!\n\n# Skip non-block devices.\nSUBSYSTEM!=\"block\", GOTO=\"out\"\n\n"

/-- Segment of `udevFileTemplate` between `\x7b\x7b.Rules\x7d\x7d` and the first
`\x7b\x7b.Name\x7d\x7d`. -/
def tplMid1 : String :=
  "\n\n# Check if the device was matched by any of the rules above.\nENV\x7bKUBERNETES_STORAGE_CLASS\x7d==\"\", GOTO=\"out\"\n\n# The device matched, create a symlink with stable device name if possible.\nENV\x7bID_SERIAL\x7d!=\"\", SYMLINK+=\"disk/kubernetes/"

/-- Segment of `udevFileTemplate` between the first and the second
`\x7b\x7b.Name\x7d\x7d`. -/
def tplMid2 : String :=
  "/$env\x7bKUBERNETES_STORAGE_CLASS\x7d/$env\x7bID_BUS\x7d-$env\x7bID_SERIAL\x7d\"\n\n# Fall back to kernel name if stable device name does not exist.\nENV\x7bID_SERIAL\x7d==\"\", SYMLINK+=\"disk/kubernetes/"

/-- Segment of `udevFileTemplate` after the second `\x7b\x7b.Name\x7d\x7d`. -/
def tplTail : String :=
  "/$env\x7bKUBERNETES_STORAGE_CLASS\x7d/$kernel\"\n\nLABEL=\"out\"\n"

/-- Embeds execution of `udevFileTemplate` with parameters
`\x7bName: u.name, Rules: string(config)\x7d`: the raw configuration bytes are
spliced verbatim where `\x7b\x7b.Rules\x7d\x7d` stands, and the name where each
`\x7b\x7b.Name\x7d\x7d` stands (Go templates write the strings byte for byte). -/
def renderUdevFile (name : String) (config : List Nat) : List Nat :=
  strToBytes tplHead ++ config ++ strToBytes tplMid1 ++ strToBytes name ++
    strToBytes tplMid2 ++ strToBytes name ++ strToBytes tplTail

/-- The state of `UdevSync` (the template field is the fixed pure
`renderUdevFile`, and the exec interface is passed through the per-operation
environments, so neither is stored). -/
structure UdevSync where
  name : String
  configFile : String
  oldConfigContent : List Nat
  rulesFile : String
deriving Repr, DecidableEq

/-- Embeds `NewUdevSync`: derives the rules file path as
`path.Join(rulesPath, fmt.Sprintf("99-kubernetes-%s.rules", name))` and
starts with a nil last-known configuration. -/
def NewUdevSync (configFile rulesPath name : String) : UdevSync :=
  { name := name
    configFile := configFile
    oldConfigContent := []
    rulesFile := pathJoin rulesPath ("99-kubernetes-" ++ name ++ ".rules") }

/-- Embeds `UdevSync.needApplyConfig`: report a change when the lengths
differ, otherwise when some index holds different bytes. -/
def needApplyConfig (u : UdevSync) (config : List Nat) : Bool :=
  if config.length ≠ u.oldConfigContent.length then true
  else (List.range config.length).any fun i =>
    decide (config.getD i 0 ≠ u.oldConfigContent.getD i 0)

/-- Environment of a single `applyConfig` call: the result of
`ioutil.ReadFile(u.configFile)`, the error of the artifact
open-create-truncate (`none` = the write goes through), and the exec
interface. -/
structure TickEnv where
  readResult : Except String (List Nat)
  writeErr : Option String
  exec : ExecOracle

/-- Result of one `applyConfig` call: the state afterwards, the complete file
writes performed, the command vectors handed to the runner, and the returned
error. -/
structure ApplyResult where
  state : UdevSync
  writes : List (String × List Nat)
  cmds : List (List String)
  err : Option String

/-- Embeds `UdevSync.writeRulesFile`: open `u.rulesFile` with
create-truncate-write-only (failure aborts with the error and nothing
written), then execute the template into it, producing the rendered bytes. -/
def writeRulesFile (env : TickEnv) (u : UdevSync) (config : List Nat) :
    List (String × List Nat) × Option String :=
  match env.writeErr with
  | some e => ([], some e)
  | none => ([(u.rulesFile, renderUdevFile u.name config)], none)

/-- Embeds `UdevSync.applyConfig`: read the configuration file (failure
returns the error with nothing done); if `needApplyConfig` reports no change,
return successfully with nothing done; otherwise write the rules file, run
the reload sequence (its failure is wrapped as
`"failed to reload udev rules: ..."` and leaves `oldConfigContent`
untouched), and only on full success store the configuration as
`oldConfigContent`. -/
def applyConfig (env : TickEnv) (u : UdevSync) : ApplyResult :=
  match env.readResult with
  | Except.error e => ⟨u, [], [], some e⟩
  | Except.ok config =>
    if needApplyConfig u config = true then
      match writeRulesFile env u config with
      | (ws, some e) => ⟨u, ws, [], some e⟩
      | (ws, none) =>
        match reloadUdev env.exec with
        | (tr, some e) => ⟨u, ws, tr, some ("failed to reload udev rules: " ++ e)⟩
        | (tr, none) => ⟨{ u with oldConfigContent := config }, ws, tr, none⟩
    else ⟨u, [], [], none⟩

/-- Environment of the shutdown path: the error of `os.Remove(u.rulesFile)`
(`none` = the file was removed) and the exec interface. -/
structure ShutdownEnv where
  removeErr : Option String
  exec : ExecOracle

/-- Result of `removeUdevFile`: the path `os.Remove` was pointed at, whether
the artifact was removed, and the command vectors handed to the runner. -/
structure ShutdownResult where
  target : String
  removed : Bool
  cmds : List (List String)

/-- Embeds `UdevSync.removeUdevFile`, as written: call `os.Remove` on
`u.rulesFile`; when it fails the function logs the error and returns
immediately — only when the removal succeeds does it go on to invoke
`reloadUdev` (whose own failure is logged and ignored). -/
def removeUdevFile (env : ShutdownEnv) (u : UdevSync) : ShutdownResult :=
  match env.removeErr with
  | some _ => { target := u.rulesFile, removed := false, cmds := [] }
  | none => { target := u.rulesFile, removed := true, cmds := (reloadUdev env.exec).1 }

/-- Embeds the ticker arm of `UdevSync.Run`: a sequence of timer ticks, each
calling `applyConfig` in its own environment (a failure is only logged), the
state threading from one tick to the next; returns the final state and the
concatenated writes and command vectors. -/
def runTicks : UdevSync → List TickEnv → UdevSync × List (String × List Nat) × List (List String)
  | u, [] => (u, [], [])
  | u, env :: rest =>
    let r := applyConfig env u
    let k := runTicks r.state rest
    (k.1, r.writes ++ k.2.1, r.cmds ++ k.2.2)

/-- An exec oracle on which every command succeeds with empty output. -/
def okOracle : ExecOracle := fun _ => ⟨"", none⟩

/-- An exec oracle on which every command fails with message "boom". -/
def failOracle : ExecOracle := fun _ => ⟨"", some "boom"⟩

/-- Helper: `needApplyConfig` reports `true` exactly when the fresh bytes
differ from the stored snapshot. -/
lemma needApply_true_iff (u : UdevSync) (config : List Nat) :
    needApplyConfig u config = true ↔ config ≠ u.oldConfigContent := by
  unfold needApplyConfig
  by_cases hlen : config.length = u.oldConfigContent.length
  · rw [if_neg (by simp [hlen])]
    simp only [List.any_eq_true, List.mem_range, decide_eq_true_eq]
    constructor
    · rintro ⟨i, hi, hne⟩ heq
      exact hne (by rw [heq])
    · intro hne
      by_contra hall
      push_neg at hall
      apply hne
      apply List.ext_getElem hlen
      intro i h1 h2
      have hifin := hall i h1
      rwa [List.getD_eq_getElem config 0 h1, List.getD_eq_getElem _ 0 h2] at hifin
  · rw [if_pos (by simpa using hlen)]
    simp only [true_iff]
    intro heq
    exact hlen (by rw [heq])

/-- Helper: `needApplyConfig` reports `false` exactly when the fresh bytes
equal the stored snapshot. -/
lemma needApply_false_iff (u : UdevSync) (config : List Nat) :
    needApplyConfig u config = false ↔ config = u.oldConfigContent := by
  rw [Bool.eq_false_iff, ne_eq, needApply_true_iff, ne_eq, not_not]

/-- Helper: a tick that reads bytes equal to the snapshot does nothing. -/
lemma applyConfig_noop (env : TickEnv) (u : UdevSync) (cfg : List Nat)
    (hread : env.readResult = Except.ok cfg)
    (hold : cfg = u.oldConfigContent) :
    applyConfig env u = ⟨u, [], [], none⟩ := by
  have hn : needApplyConfig u cfg = false := (needApply_false_iff u cfg).mpr hold
  unfold applyConfig
  rw [hread]
  simp [hn]

/-- Helper: a tick that reads a changed configuration and opens the rules
file successfully is decided by the reload sequence: on reload failure the
state is unchanged and the wrapped error returned, on success the snapshot
becomes the fresh bytes. -/
lemma applyConfig_eq_of_change (env : TickEnv) (u : UdevSync) (cfg : List Nat)
    (hread : env.readResult = Except.ok cfg)
    (hneed : needApplyConfig u cfg = true)
    (hwrite : env.writeErr = none) :
    applyConfig env u =
      match reloadUdev env.exec with
      | (tr, some e) => ⟨u, [(u.rulesFile, renderUdevFile u.name cfg)], tr,
          some ("failed to reload udev rules: " ++ e)⟩
      | (tr, none) => ⟨{ u with oldConfigContent := cfg },
          [(u.rulesFile, renderUdevFile u.name cfg)], tr, none⟩ := by
  unfold applyConfig writeRulesFile
  rw [hread, hwrite]
  simp [hneed]

/-- Helper: a tick that reads a changed configuration but cannot open the
rules file aborts with the open error and changes nothing. -/
lemma applyConfig_eq_of_writeFail (env : TickEnv) (u : UdevSync) (cfg : List Nat)
    (e : String)
    (hread : env.readResult = Except.ok cfg)
    (hneed : needApplyConfig u cfg = true)
    (hwrite : env.writeErr = some e) :
    applyConfig env u = ⟨u, [], [], some e⟩ := by
  unfold applyConfig writeRulesFile
  rw [hread, hwrite]
  simp [hneed]

/-- Helper: a successful tick that read `cfg` leaves the snapshot equal to
`cfg` (either it was already equal, or the apply succeeded and stored it). -/
lemma applyConfig_ok_oldContent (env : TickEnv) (u : UdevSync) (cfg : List Nat)
    (hread : env.readResult = Except.ok cfg)
    (hok : (applyConfig env u).err = none) :
    (applyConfig env u).state.oldConfigContent = cfg := by
  by_cases hn : needApplyConfig u cfg = true
  · cases hwe : env.writeErr with
    | some e =>
      rw [applyConfig_eq_of_writeFail env u cfg e hread hn hwe] at hok
      simp at hok
    | none =>
      have h1 := applyConfig_eq_of_change env u cfg hread hn hwe
      rcases hr : reloadUdev env.exec with ⟨tr, res⟩
      rw [hr] at h1
      cases res with
      | some e =>
        rw [h1] at hok
        simp at hok
      | none => simp [h1]
  · have hn' : needApplyConfig u cfg = false := by
      cases h : needApplyConfig u cfg
      · rfl
      · exact absurd h hn
    have hold := (needApply_false_iff u cfg).mp hn'
    rw [applyConfig_noop env u cfg hread hold]
    exact hold.symm

/-- C1: the claim says a deletion failure at shutdown is non-fatal and the
reload sequence still runs; in the source `removeUdevFile` returns right
after logging the removal error, so no reload command is invoked at all,
while a successful removal is followed by the full three-command reload. -/
theorem removeUdevFile_failure_skips_reload :
    (removeUdevFile ⟨some "permission denied", okOracle⟩
        (NewUdevSync "/etc/local-storage-discoverer/rules.conf" "/run/udev/rules.d" "pool-a")).cmds
      = []
    ∧ (removeUdevFile ⟨none, okOracle⟩
        (NewUdevSync "/etc/local-storage-discoverer/rules.conf" "/run/udev/rules.d" "pool-a")).cmds
      = udevadmCommands := ⟨rfl, rfl⟩

/-- C2: every reload-sequence invocation hands exactly the three `udevadm`
vectors to the runner in the fixed order reload, trigger, settle; the first
failing command stops the sequence (later commands are never run) and the
returned error carries the captured combined output of that command. -/
theorem reloadUdev_order_fail_fast (e : ExecOracle) :
    reloadUdev e =
      match (e ["udevadm", "control", "--reload"]).err with
      | some m =>
        ([["udevadm", "control", "--reload"]],
         some (execErrMsg ["udevadm", "control", "--reload"]
           (e ["udevadm", "control", "--reload"]).out m))
      | none =>
        match (e ["udevadm", "trigger", "--subsystem-match=block"]).err with
        | some m =>
          ([["udevadm", "control", "--reload"],
            ["udevadm", "trigger", "--subsystem-match=block"]],
           some (execErrMsg ["udevadm", "trigger", "--subsystem-match=block"]
             (e ["udevadm", "trigger", "--subsystem-match=block"]).out m))
        | none =>
          match (e ["udevadm", "settle", "--timeout=300"]).err with
          | some m =>
            (udevadmCommands,
             some (execErrMsg ["udevadm", "settle", "--timeout=300"]
               (e ["udevadm", "settle", "--timeout=300"]).out m))
          | none => (udevadmCommands, none) := by
  unfold reloadUdev udevadmCommands
  cases h1 : (e ["udevadm", "control", "--reload"]).err with
  | some m => simp [runCommands, h1]
  | none =>
    cases h2 : (e ["udevadm", "trigger", "--subsystem-match=block"]).err with
    | some m => simp [runCommands, h1, h2]
    | none =>
      cases h3 : (e ["udevadm", "settle", "--timeout=300"]).err with
      | some m => simp [runCommands, h1, h2, h3]
      | none => simp [runCommands, h1, h2, h3]

/-- C3: when the reload sequence fails while applying `cfg1`, the whole
state — in particular `oldConfigContent` — is unchanged and the wrapped
reload error is returned; a later tick that reads the same `cfg1` therefore
writes the rendered artifact again and re-runs the reload sequence. -/
theorem apply_reload_failure_retries (u : UdevSync) (cfg1 : List Nat)
    (env env2 : TickEnv) (m : String)
    (hread : env.readResult = Except.ok cfg1)
    (hneed : needApplyConfig u cfg1 = true)
    (hwrite : env.writeErr = none)
    (hfail : (reloadUdev env.exec).2 = some m)
    (hread2 : env2.readResult = Except.ok cfg1)
    (hwrite2 : env2.writeErr = none) :
    (applyConfig env u).state = u
    ∧ (applyConfig env u).err = some ("failed to reload udev rules: " ++ m)
    ∧ (applyConfig env2 (applyConfig env u).state).writes
        = [(u.rulesFile, renderUdevFile u.name cfg1)]
    ∧ (applyConfig env2 (applyConfig env u).state).cmds = (reloadUdev env2.exec).1 := by
  have h1 := applyConfig_eq_of_change env u cfg1 hread hneed hwrite
  rcases hr : reloadUdev env.exec with ⟨tr, res⟩
  rw [hr] at h1 hfail
  simp only at hfail
  subst hfail
  simp only at h1
  have hstate : (applyConfig env u).state = u := by rw [h1]
  have h2 := applyConfig_eq_of_change env2 u cfg1 hread2 hneed hwrite2
  rcases hr2 : reloadUdev env2.exec with ⟨tr2, res2⟩
  rw [hr2] at h2
  refine ⟨hstate, by rw [h1], ?_, ?_⟩
  · rw [hstate]
    cases res2 with
    | some e2 => simp only at h2; rw [h2]
    | none => simp only at h2; rw [h2]
  · rw [hstate]
    cases res2 with
    | some e2 => simp only at h2; rw [h2]
    | none => simp only at h2; rw [h2]

/-- C3 witness: a concrete reload failure with configuration `[65]` from the
initial state, followed by a tick whose reload succeeds. -/
theorem apply_reload_failure_retries_witness :
    (applyConfig ⟨Except.ok [65], none, failOracle⟩ (NewUdevSync "/c" "/d" "n")).state
      = NewUdevSync "/c" "/d" "n"
    ∧ (applyConfig ⟨Except.ok [65], none, failOracle⟩ (NewUdevSync "/c" "/d" "n")).err
      = some ("failed to reload udev rules: "
          ++ execErrMsg ["udevadm", "control", "--reload"] "" "boom")
    ∧ (applyConfig ⟨Except.ok [65], none, okOracle⟩
          (applyConfig ⟨Except.ok [65], none, failOracle⟩ (NewUdevSync "/c" "/d" "n")).state).writes
        = [((NewUdevSync "/c" "/d" "n").rulesFile,
            renderUdevFile (NewUdevSync "/c" "/d" "n").name [65])]
    ∧ (applyConfig ⟨Except.ok [65], none, okOracle⟩
          (applyConfig ⟨Except.ok [65], none, failOracle⟩ (NewUdevSync "/c" "/d" "n")).state).cmds
        = (reloadUdev okOracle).1 :=
  apply_reload_failure_retries (NewUdevSync "/c" "/d" "n") [65]
    ⟨Except.ok [65], none, failOracle⟩ ⟨Except.ok [65], none, okOracle⟩
    (execErrMsg ["udevadm", "control", "--reload"] "" "boom")
    rfl rfl rfl rfl rfl rfl

/-- C4: for all byte sequences, `needApplyConfig` returns `true` exactly when
the fresh bytes differ from the stored `oldConfigContent` (including length
differences) and `false` exactly when they are equal (including both
empty). -/
theorem needApplyConfig_change_detection (u : UdevSync) (config : List Nat) :
    (needApplyConfig u config = true ↔ config ≠ u.oldConfigContent)
    ∧ (needApplyConfig u config = false ↔ config = u.oldConfigContent) :=
  ⟨needApply_true_iff u config, needApply_false_iff u config⟩

/-- C5: after a tick that applied `cfg` successfully, a further tick reading
the same `cfg` performs no write and no command invocation and leaves the
state unchanged. -/
theorem apply_success_then_tick_noop (u : UdevSync) (cfg : List Nat)
    (env env2 : TickEnv)
    (hread : env.readResult = Except.ok cfg)
    (hok : (applyConfig env u).err = none)
    (hread2 : env2.readResult = Except.ok cfg) :
    applyConfig env2 (applyConfig env u).state
      = ⟨(applyConfig env u).state, [], [], none⟩ := by
  have hold := applyConfig_ok_oldContent env u cfg hread hok
  exact applyConfig_noop env2 _ cfg hread2 hold.symm

/-- C5 witness: a concrete successful apply of `[65]` from the initial
state, followed by a tick reading the same bytes. -/
theorem apply_success_then_tick_noop_witness :
    applyConfig ⟨Except.ok [65], none, okOracle⟩
        (applyConfig ⟨Except.ok [65], none, okOracle⟩ (NewUdevSync "/c" "/d" "n")).state
      = ⟨(applyConfig ⟨Except.ok [65], none, okOracle⟩ (NewUdevSync "/c" "/d" "n")).state,
          [], [], none⟩ :=
  apply_success_then_tick_noop (NewUdevSync "/c" "/d" "n") [65]
    ⟨Except.ok [65], none, okOracle⟩ ⟨Except.ok [65], none, okOracle⟩ rfl rfl rfl

/-- The configuration body of end-to-end scenario A. -/
def scenarioAConfig : String :=
  "KERNELS==\"sda\", ENV\x7bKUBERNETES_STORAGE_CLASS\x7d=\"fast\""

/-- The artifact content scenario A expects: the configuration body embedded
verbatim between the fixed guard and symlink boilerplate, with `pool-a`
substituted into both SYMLINK rule paths. -/
def scenarioARendered : String :=
  "\n# Generated file, do not modify!\n\n# Skip non-block devices.\nSUBSYSTEM!=\"block\", GOTO=\"out\"\n\nKERNELS==\"sda\", ENV\x7bKUBERNETES_STORAGE_CLASS\x7d=\"fast\"\n\n# Check if the device was matched by any of the rules above.\nENV\x7bKUBERNETES_STORAGE_CLASS\x7d==\"\", GOTO=\"out\"\n\n# The device matched, create a symlink with stable device name if possible.\nENV\x7bID_SERIAL\x7d!=\"\", SYMLINK+=\"disk/kubernetes/pool-a/$env\x7bKUBERNETES_STORAGE_CLASS\x7d/$env\x7bID_BUS\x7d-$env\x7bID_SERIAL\x7d\"\n\n# Fall back to kernel name if stable device name does not exist.\nENV\x7bID_SERIAL\x7d==\"\", SYMLINK+=\"disk/kubernetes/pool-a/$env\x7bKUBERNETES_STORAGE_CLASS\x7d/$kernel\"\n\nLABEL=\"out\"\n"

set_option maxRecDepth 100000 in
/-- C6: with node-group name `pool-a` the artifact path derived at
construction is `<rulesDir>/99-kubernetes-pool-a.rules`, and applying the
scenario-A configuration writes exactly the expected rendered content — the
raw bytes verbatim between the fixed boilerplate, with `pool-a` in both
SYMLINK paths — at that path. -/
theorem scenarioA_artifact :
    (NewUdevSync "/etc/local-storage-discoverer/rules.conf" "/run/udev/rules.d" "pool-a").rulesFile
      = "/run/udev/rules.d/99-kubernetes-pool-a.rules"
    ∧ renderUdevFile "pool-a" (strToBytes scenarioAConfig) = strToBytes scenarioARendered
    ∧ (applyConfig ⟨Except.ok (strToBytes scenarioAConfig), none, okOracle⟩
          (NewUdevSync "/etc/local-storage-discoverer/rules.conf" "/run/udev/rules.d" "pool-a")).writes
        = [("/run/udev/rules.d/99-kubernetes-pool-a.rules", strToBytes scenarioARendered)] :=
  ⟨rfl, by rfl, by rfl⟩

/-- C7: the namespace-entering runner always executes exactly the wrapper
`["nsenter", "--mount=<hostProcDir>/1/ns/mnt", "--"]` followed by the
original vector unchanged, targeting the namespace handle of process 1 under
the configured host proc directory. -/
theorem nsenterExec_wraps (hostProcDir : String) (os : ExecOracle) (cmd : List String) :
    nsenterExecExec hostProcDir os cmd =
      some (["nsenter", "--mount=" ++ (hostProcDir ++ "/" ++ "1/ns/mnt"), "--"] ++ cmd,
        os (["nsenter", "--mount=" ++ (hostProcDir ++ "/" ++ "1/ns/mnt"), "--"] ++ cmd)) := by
  simp [nsenterExecExec, nsenterWrap, splitArgv, pathJoin, mountNsPath]

/-- C8: rendering is a pure total function — identical inputs give
byte-identical output — and the raw configuration bytes are embedded
verbatim, as a contiguous segment of the rendered artifact. -/
theorem render_pure_verbatim (name : String) (config : List Nat) :
    renderUdevFile name config = renderUdevFile name config
    ∧ ∃ pre post : List Nat, renderUdevFile name config = pre ++ config ++ post :=
  ⟨rfl, strToBytes tplHead,
    strToBytes tplMid1 ++ strToBytes name ++ strToBytes tplMid2 ++ strToBytes name
      ++ strToBytes tplTail,
    by simp [renderUdevFile]⟩

/-- C9: starting from the freshly constructed state, any run of ticks each of
which reads a zero-byte configuration performs no write and no command
invocation and leaves the state at its initial value. -/
theorem empty_config_all_noop (configFile rulesPath name : String) (envs : List TickEnv)
    (h : ∀ env ∈ envs, env.readResult = Except.ok []) :
    runTicks (NewUdevSync configFile rulesPath name) envs
      = (NewUdevSync configFile rulesPath name, [], []) := by
  induction envs with
  | nil => rfl
  | cons e rest ih =>
    have he : e.readResult = Except.ok [] := h e (List.mem_cons_self e rest)
    have hstep : applyConfig e (NewUdevSync configFile rulesPath name)
        = ⟨NewUdevSync configFile rulesPath name, [], [], none⟩ :=
      applyConfig_noop e _ [] he rfl
    simp [runTicks, hstep, ih (fun x hx => h x (List.mem_cons_of_mem e hx))]

/-- C9 witness: one tick reading zero bytes from the initial state. -/
theorem empty_config_all_noop_witness :
    runTicks (NewUdevSync "/c" "/d" "n") [⟨Except.ok [], none, okOracle⟩]
      = (NewUdevSync "/c" "/d" "n", [], []) :=
  empty_config_all_noop "/c" "/d" "n" [⟨Except.ok [], none, okOracle⟩]
    (by intro env henv; rw [List.mem_singleton] at henv; subst henv; rfl)

/-- C10 counterexample: the namespace-entering variant runs an empty
argument vector without any out-of-bounds access — the vector it indexes is
the wrapped one, which always starts with "nsenter" — so it does not require
a non-empty argv. -/
theorem nsenterExec_empty_argv_executes :
    nsenterExecExec "/rootfs/proc" okOracle [] =
      some (["nsenter", "--mount=/rootfs/proc/1/ns/mnt", "--"], ⟨"", none⟩) := rfl

/-- C10 (amended): the unguarded `cmd[0]` of the direct variant makes an empty
vector an out-of-bounds access, so it needs a non-empty argv, which makes
the access safe; the vector executed by the namespace-entering variant is
non-empty by construction for every argv; and every reload-sequence vector
has exactly three elements, so the reconcile loop satisfies the precondition of the direct
variant. -/
theorem argv_indexing_safety (os : ExecOracle) :
    execExec os [] = none
    ∧ (∀ cmd : List String, cmd ≠ [] → (execExec os cmd).isSome = true)
    ∧ (∀ hostProcDir cmd, (nsenterExecExec hostProcDir os cmd).isSome = true)
    ∧ (∀ c ∈ udevadmCommands, c.length = 3) := by
  refine ⟨rfl, ?_, ?_, ?_⟩
  · intro cmd h
    cases cmd with
    | nil => exact absurd rfl h
    | cons a t => rfl
  · intro hostProcDir cmd
    rfl
  · intro c hc
    simp only [udevadmCommands, List.mem_cons, List.not_mem_nil, or_false] at hc
    rcases hc with h | h | h <;> subst h <;> rfl

/-- C10 witness: concrete instances of each amended conjunct. -/
theorem argv_indexing_safety_witness :
    execExec okOracle [] = none
    ∧ (execExec okOracle ["udevadm", "control", "--reload"]).isSome = true
    ∧ (nsenterExecExec "/rootfs/proc" okOracle ["udevadm"]).isSome = true
    ∧ (["udevadm", "control", "--reload"] : List String).length = 3 :=
  ⟨(argv_indexing_safety okOracle).1,
   (argv_indexing_safety okOracle).2.1 ["udevadm", "control", "--reload"] (by decide),
   (argv_indexing_safety okOracle).2.2.1 "/rootfs/proc" ["udevadm"],
   (argv_indexing_safety okOracle).2.2.2 ["udevadm", "control", "--reload"] (by decide)⟩

end UdevWriter
